import Mathlib

/-!
# Report queue, driver registry and connection lifecycle of `hid-lg-extended`

Shallow embedding of `hid-lg-core.c` and of the two revisions of
`hid-lg-device.c` (the older one at `src/hid-lg-device.c`, the newer one at
`src/src/hid-lg-device.c`).

Conventions of the embedding:

* pointers are natural numbers, `0` is `NULL`;
* `u8` bytes are `Fin 256`; the `u8` indices `head`/`tail` are naturals and
  the reduction `% LG_DEVICE_BUFSIZE` of the source is kept explicit;
* the kernel constant `HID_MAX_BUFFER_SIZE` (from `<linux/hid.h>`, not part of
  the repository) is a parameter of every definition that uses it;
* calls into the kernel (`schedule_work`, `kfree`, `hid_hw_stop`, driver
  callbacks, ...) are recorded as results or as a trace of events;
* loops that need not terminate on every state carry a fuel argument and
  return `none` when it runs out.
-/

/-! ## Report queue (`lg_device_queue`, the two workers) -/

/-- The C type `u8`. -/
abbrev u8 := Fin 256

/-- Embedding of `#define LG_DEVICE_BUFSIZE 32` -/
abbrev LG_DEVICE_BUFSIZE : Nat := 32

/-- Embedding of `struct lg_device_buf`: the array `data[HID_MAX_BUFFER_SIZE]` and `size`. -/
structure lg_device_buf where
  data : List u8
  size : Nat
deriving DecidableEq, Repr, Inhabited

/-- Embedding of `struct lg_device_queue`: `head`, `tail`, the slot array `queue` and the
back pointer `main_device`.  The spinlock has no state in a sequential
embedding; the state of `worker` lives in the kernel work queue. -/
structure struct_lg_device_queue where
  head : Nat
  tail : Nat
  queue : List lg_device_buf
  main_device : Nat
deriving DecidableEq, Repr, Inhabited

/-- Embedding of `memcpy(dst, src, n)` on arrays represented as lists: the first `n` bytes
of `dst` are replaced by the first `n` bytes of `src`. -/
def memcpy (dst src : List u8) (n : Nat) : List u8 :=
  src.take n ++ dst.drop n

/-- What a call of `lg_device_queue` leaves behind: the queue, whether
`schedule_work(&queue->worker)` was requested, and the `hid_warn` message. -/
structure queue_result where
  queue : struct_lg_device_queue
  scheduled : Bool
  warn : Option String
deriving DecidableEq, Repr

/-- Embedding of `lg_device_queue(device, queue, buffer, count)`; identical in both
revisions of `hid-lg-device.c`.  `device` is only used for the warning. -/
def lg_device_queue (HID_MAX_BUFFER_SIZE : Nat) (queue : struct_lg_device_queue)
    (buffer : List u8) (count : Nat) : queue_result :=
  if count > HID_MAX_BUFFER_SIZE then
    { queue := queue, scheduled := false, warn := some "Sending too large output report\n" }
  else
    let slot := queue.queue.getD queue.head default
    let queue1 : struct_lg_device_queue :=
      { queue with queue := queue.queue.set queue.head
                      { data := memcpy slot.data buffer count, size := count } }
    let newhead := (queue.head + 1) % LG_DEVICE_BUFSIZE
    if queue.head = queue.tail then
      { queue := { queue1 with head := newhead }, scheduled := true, warn := none }
    else if newhead ≠ queue.tail then
      { queue := { queue1 with head := newhead }, scheduled := false, warn := none }
    else
      { queue := queue1, scheduled := false, warn := some "Queue is full" }

/-- Embedding of `lg_device_send_worker`: the list holds, in call order, the arguments
`(queue->queue[tail].data, queue->queue[tail].size)` of every call of
`lg_device_hid_send`.  One unit of fuel per evaluation of the loop test. -/
def lg_device_send_worker :
    Nat → struct_lg_device_queue → Option (struct_lg_device_queue × List lg_device_buf)
  | 0, _ => none
  | fuel + 1, queue =>
    if queue.head ≠ queue.tail then
      let sent := queue.queue.getD queue.tail default
      match lg_device_send_worker fuel
          { queue with tail := (queue.tail + 1) % LG_DEVICE_BUFSIZE } with
      | some (q, log) => some (q, sent :: log)
      | none => none
    else
      some (queue, [])

/-- Embedding of `lg_device_receive_worker`: `receive_handler` tells whether
`device->driver->receive_handler` is non-NULL; the list holds the arguments of
every call of that handler, in call order. -/
def lg_device_receive_worker (receive_handler : Bool) :
    Nat → struct_lg_device_queue → Option (struct_lg_device_queue × List lg_device_buf)
  | 0, _ => none
  | fuel + 1, queue =>
    if queue.head ≠ queue.tail then
      let received := if receive_handler then [queue.queue.getD queue.tail default] else []
      match lg_device_receive_worker receive_handler fuel
          { queue with tail := (queue.tail + 1) % LG_DEVICE_BUFSIZE } with
      | some (q, log) => some (q, received ++ log)
      | none => none
    else
      some (queue, [])

/-- The bytes a sink sees when handed the pointer `data` and the length `size`. -/
def report_bytes (b : lg_device_buf) : List u8 :=
  b.data.take b.size

/-- Well-formed queue object: indices inside the slot array, `LG_DEVICE_BUFSIZE`
slots, every slot an array of `HID_MAX_BUFFER_SIZE` bytes. -/
def queue_wf (HID_MAX_BUFFER_SIZE : Nat) (q : struct_lg_device_queue) : Prop :=
  q.head < LG_DEVICE_BUFSIZE ∧ q.tail < LG_DEVICE_BUFSIZE ∧
  q.queue.length = LG_DEVICE_BUFSIZE ∧
  ∀ b ∈ q.queue, b.data.length = HID_MAX_BUFFER_SIZE

instance (M : Nat) (q : struct_lg_device_queue) : Decidable (queue_wf M q) := by
  unfold queue_wf; infer_instance

/-- Number of pending items: the distance from `tail` to `head` around the ring. -/
def pending_count (q : struct_lg_device_queue) : Nat :=
  (q.head + LG_DEVICE_BUFSIZE - q.tail) % LG_DEVICE_BUFSIZE

/-- The pending slots, indices `tail .. head-1` modulo `LG_DEVICE_BUFSIZE`,
oldest first. -/
def pending_slots (q : struct_lg_device_queue) : List lg_device_buf :=
  (List.range (pending_count q)).map
    (fun i => q.queue.getD ((q.tail + i) % LG_DEVICE_BUFSIZE) default)

/-- Successive calls of `lg_device_queue`, one per payload, with
`count` the payload's length; nothing drains in between. -/
def enqueue_all (HID_MAX_BUFFER_SIZE : Nat) (q : struct_lg_device_queue)
    (payloads : List (List u8)) : struct_lg_device_queue :=
  payloads.foldl (fun acc p => (lg_device_queue HID_MAX_BUFFER_SIZE acc p p.length).queue) q

/-- The slot `queue[head]` after the `memcpy` and the store to `size`. -/
def written_slot (q : struct_lg_device_queue) (buffer : List u8) (count : Nat) :
    lg_device_buf :=
  { data := memcpy (q.queue.getD q.head default).data buffer count, size := count }

/-- The queue after a call that is neither oversized nor dropped. -/
def accepted_queue (q : struct_lg_device_queue) (buffer : List u8) (count : Nat) :
    struct_lg_device_queue :=
  { q with
    head := (q.head + 1) % LG_DEVICE_BUFSIZE,
    queue := q.queue.set q.head (written_slot q buffer count) }

/-- The queue after a call that is dropped because the ring is full. -/
def dropped_queue (q : struct_lg_device_queue) (buffer : List u8) (count : Nat) :
    struct_lg_device_queue :=
  { q with queue := q.queue.set q.head (written_slot q buffer count) }

/-- A queue as `kzalloc` returns it: every byte zero. -/
def kzalloc_queue (HID_MAX_BUFFER_SIZE : Nat) : struct_lg_device_queue :=
  { head := 0, tail := 0,
    queue := List.replicate LG_DEVICE_BUFSIZE
      { data := List.replicate HID_MAX_BUFFER_SIZE 0, size := 0 },
    main_device := 0 }

/-! ## Inbound reports (`lg_device_event`) -/

/-- Conversion of the `int size` argument to the `size_t count` parameter of
`lg_device_queue` (64-bit `size_t`). -/
def size_t_of_int (size : Int) : Nat :=
  (size % 2 ^ 64).toNat

/-- What `lg_device_event` leaves behind: its return value, the input queue of
the bound device (`none` when the connection has no device), whether the
worker of that queue was scheduled, the arguments of every call of
`lg_device_queue`, and the diagnostics. -/
structure event_result where
  ret : Int
  in_queue : Option struct_lg_device_queue
  scheduled : Bool
  queued : List (List u8 × Nat)
  log : List String
deriving DecidableEq, Repr

namespace Rev2

/-- Embedding of `lg_device_event` of `src/src/hid-lg-device.c`.  `id` is `report->id`,
`in_queue` is `hid_get_drvdata(hdev)->in_queue`, `none` when
`hid_get_drvdata(hdev)` is NULL. -/
def lg_device_event (HID_MAX_BUFFER_SIZE : Nat) (in_queue : Option struct_lg_device_queue)
    (id : Nat) (raw_data : List u8) (size : Int) : event_result :=
  if id < 0x10 then
    { ret := 0, in_queue := in_queue, scheduled := false, queued := [], log := [] }
  else
    match in_queue with
    | none =>
      { ret := 0, in_queue := none, scheduled := false, queued := [],
        log := ["Trying to handle an event on a not initialized device, aborting"] }
    | some q =>
      let r := lg_device_queue HID_MAX_BUFFER_SIZE q raw_data (size_t_of_int size)
      { ret := 0, in_queue := some r.queue, scheduled := r.scheduled,
        queued := [(raw_data, size_t_of_int size)], log := r.warn.toList }

end Rev2

namespace Rev1

/-- Embedding of `lg_device_event` of `src/hid-lg-device.c`.  There is no NULL test: with
no bound device `device->in_queue` dereferences NULL, which is `none`. -/
def lg_device_event (HID_MAX_BUFFER_SIZE : Nat) (in_queue : Option struct_lg_device_queue)
    (id : Nat) (raw_data : List u8) (size : Int) : Option event_result :=
  if id < 0x10 then
    some { ret := 0, in_queue := in_queue, scheduled := false, queued := [], log := [] }
  else
    match in_queue with
    | none => none
    | some q =>
      let r := lg_device_queue HID_MAX_BUFFER_SIZE q raw_data (size_t_of_int size)
      some { ret := 0, in_queue := some r.queue, scheduled := r.scheduled,
             queued := [(raw_data, size_t_of_int size)], log := r.warn.toList }

end Rev1

/-! ## Driver registry (`hid-lg-core.c`) -/

/-- The fields of `struct hid_device_id` the core reads. -/
structure hid_device_id where
  bus : Nat
  vendor : Nat
  product : Nat
deriving DecidableEq, Repr, Inhabited

/-- Embedding of `struct lg_driver`.  Its declaration (`hid-lg-core.h`) is not
among the sources; the fields are those the functions below use.  The
callbacks are represented by whether the function pointer is non-NULL. -/
structure lg_driver where
  name : String
  device_id : hid_device_id
  type : Nat
  init : Bool
  exit : Bool
  receive_handler : Bool
deriving DecidableEq, Repr, Inhabited

/-- Embedding of `static struct lg_driver drivers;`: the zero-initialised object whose
`list` member is the head of the registry. -/
def drivers : lg_driver :=
  { name := "", device_id := { bus := 0, vendor := 0, product := 0 }, type := 0,
    init := false, exit := false, receive_handler := false }

/-- The fields of `struct hid_device` the core reads or writes; `drvdata` is
what `hid_get_drvdata` returns. -/
structure hid_device where
  bus : Nat
  vendor : Nat
  product : Nat
  drvdata : Nat
deriving DecidableEq, Repr, Inhabited

/-- What `lg_register_driver` leaves behind: the return value, the registry
(entries in the order `list_for_each_entry` visits them) and the `pr_err`
messages. -/
structure register_result where
  ret : Int
  registry : List lg_driver
  log : List String
deriving DecidableEq, Repr

/-- Embedding of `lg_register_driver(driver)`; `hid_register_driver` is the value the
transport registration returns. -/
def lg_register_driver (registry : List lg_driver) (driver : lg_driver)
    (hid_register_driver : Int) : register_result :=
  -- list_add(&driver->list, &drivers.list): insertion right behind the head
  let registry := driver :: registry
  let ret := hid_register_driver
  if ret ≠ 0 then
    { ret := ret, registry := registry, log := ["Can't register " ++ driver.name ++ " hid driver\n"] }
  else
    { ret := ret, registry := registry, log := [] }

/-- Embedding of `lg_unregister_driver(driver)`.  `list_del` leaves
`driver->list.next == LIST_POISON1`, so the test `list_empty(&driver->list)`,
which compares that pointer with `&driver->list`, is false. -/
def lg_unregister_driver (registry : List lg_driver) (driver : lg_driver) : List lg_driver :=
  let registry := registry.erase driver
  let list_empty_driver_list := false
  if list_empty_driver_list then [] else registry

/-- The `list_for_each_entry` loop of `lg_find_driver`: the values of the
cursor `driver` and of `found` when the loop is left.  When the loop runs off
the end, the cursor is `list_entry(&drivers.list, ...)`, the object `drivers`. -/
def lg_find_driver_loop (hdev : hid_device) : List lg_driver → Nat → lg_driver × Nat
  | [], found => (drivers, found)
  | driver :: rest, found =>
    if hdev.bus = driver.device_id.bus ∧ hdev.vendor = driver.device_id.vendor ∧
        hdev.product = driver.device_id.product then
      (driver, 1)
    else
      lg_find_driver_loop hdev rest found

/-- Embedding of `lg_find_driver(hdev)`.  The local `u8 found;` has no initialiser: its
indeterminate initial value is the argument `found`.  The result is `none`
for NULL. -/
def lg_find_driver (found : Nat) (registry : List lg_driver) (hdev : hid_device) :
    Option lg_driver :=
  let r := lg_find_driver_loop hdev registry found
  if r.2 = 0 then none else some r.1

/-! ## Devices and the connection lifecycle -/

/-- Embedding of `struct lg_device`.  Its declaration (`hid-lg-device.h`) is
not among the sources; the fields are those the functions below use.
Pointers are addresses, `driver` is `none` for NULL. -/
structure lg_device where
  hdev : Nat
  driver : Option lg_driver
  data : Nat
  in_queue : Nat
  out_queue : Nat
deriving DecidableEq, Repr, Inhabited

/-- Calls into the kernel and into the driver, as they appear in a trace. -/
inductive kernel_call where
  | hid_parse (hdev : Nat)
  | hid_hw_start (hdev : Nat)
  | hid_hw_stop (hdev : Nat)
  | driver_init (device : Nat)
  | driver_exit (device : Nat)
  | cancel_work_sync (queue : Nat)
  | kfree (p : Nat)
deriving DecidableEq, Repr

/-- The objects the lifecycle code works on, by address, and the trace of
calls made so far (oldest first). -/
structure memory where
  hid : Nat → hid_device
  device : Nat → lg_device
  queue : Nat → struct_lg_device_queue
  trace : List kernel_call
  log : List String

/-- Append one call to the trace. -/
def memory.call (m : memory) (c : kernel_call) : memory :=
  { m with trace := m.trace ++ [c] }

/-- Store to the `struct lg_device` at address `a`. -/
def memory.set_device (m : memory) (a : Nat) (d : lg_device) : memory :=
  { m with device := Function.update m.device a d }

/-- Store to the `struct lg_device_queue` at address `a`. -/
def memory.set_queue (m : memory) (a : Nat) (q : struct_lg_device_queue) : memory :=
  { m with queue := Function.update m.queue a q }

/-- Embedding of `hid_set_drvdata(hdev, data)`. -/
def hid_set_drvdata (m : memory) (hdev data : Nat) : memory :=
  { m with hid := Function.update m.hid hdev { m.hid hdev with drvdata := data } }

/-- Embedding of `hid_err` and `hid_warn`. -/
def hid_err (m : memory) (msg : String) : memory :=
  { m with log := m.log ++ [msg] }

/-- The errno `ENOMEM`. -/
def ENOMEM : Int := 12

/-- The errno `EINVAL`. -/
def EINVAL : Int := 22

namespace Rev1

/-- Embedding of `lg_device_create(hdev, driver)` of `src/hid-lg-device.c`.  The three
`kzalloc_*` arguments are the pointers the allocator returns (0 on failure).
Returns the device pointer, 0 for NULL. -/
def lg_device_create (HID_MAX_BUFFER_SIZE : Nat) (kzalloc_device kzalloc_out kzalloc_in : Nat)
    (m : memory) (hdev : Nat) (driver : Option lg_driver) : Nat × memory :=
  let device := kzalloc_device
  if device = 0 then (0, m)
  else
    -- the device object is zeroed by kzalloc
    let m := m.set_device device
      { hdev := 0, driver := none, data := 0, in_queue := 0, out_queue := 0 }
    let m := m.set_device device { m.device device with out_queue := kzalloc_out }
    if (m.device device).out_queue = 0 then (0, m.call (.kfree device))
    else
      let m := m.set_queue kzalloc_out (kzalloc_queue HID_MAX_BUFFER_SIZE)
      let m := m.set_device device { m.device device with in_queue := kzalloc_in }
      if (m.device device).in_queue = 0 then
        (0, (m.call (.kfree (m.device device).out_queue)).call (.kfree device))
      else
        let m := m.set_queue kzalloc_in (kzalloc_queue HID_MAX_BUFFER_SIZE)
        let m := m.set_device device
          { m.device device with hdev := hdev, data := 0, driver := driver }
        let m := hid_set_drvdata m hdev device
        let out_queue := (m.device device).out_queue
        let m := m.set_queue out_queue { m.queue out_queue with main_device := device }
        let in_queue := (m.device device).in_queue
        let m := m.set_queue in_queue { m.queue in_queue with main_device := device }
        (device, m)

/-- Embedding of `lg_device_destroy(device)` of `src/hid-lg-device.c`. -/
def lg_device_destroy (m : memory) (device : Nat) : memory :=
  let m := m.call (.cancel_work_sync (m.device device).in_queue)
  let m := m.call (.cancel_work_sync (m.device device).out_queue)
  let m := m.call (.kfree (m.device device).in_queue)
  let m := m.call (.kfree (m.device device).out_queue)
  m.call (.kfree device)

end Rev1

/-- Embedding of `lg_destroy(device)` of `hid-lg-core.c`; `none` is a call through a NULL
`exit` pointer. -/
def lg_destroy (m : memory) (device : Nat) : Option memory :=
  match (m.device device).driver with
  | some driver =>
    if driver.exit then some (Rev1.lg_device_destroy (m.call (.driver_exit device)) device)
    else none
  | none => some (Rev1.lg_device_destroy m device)

/-- The values the environment returns to one run of `lg_probe`: the
indeterminate `found` of `lg_find_driver`, the three allocations of
`lg_device_create`, and the results of `hid_parse`, `hid_hw_start` and the
driver's `init`. -/
structure probe_env where
  found : Nat
  kzalloc_device : Nat
  kzalloc_out : Nat
  kzalloc_in : Nat
  hid_parse : Int
  hid_hw_start : Int
  init : Int
deriving DecidableEq, Repr

/-- The tail of `lg_probe` from the label `err_free`. -/
def lg_probe_err_free (m : memory) (device : Nat) (ret : Int) : Option (Int × memory) :=
  (lg_destroy m device).map (fun m => (ret, m))

/-- The tail of `lg_probe` from the label `err_stop`. -/
def lg_probe_err_stop (m : memory) (hdev device : Nat) (ret : Int) : Option (Int × memory) :=
  lg_probe_err_free (m.call (.hid_hw_stop hdev)) device ret

/-- Embedding of `lg_probe(hdev, id)` of `hid-lg-core.c`; `none` is a call through a NULL
callback pointer. -/
def lg_probe (HID_MAX_BUFFER_SIZE : Nat) (env : probe_env) (registry : List lg_driver)
    (m : memory) (hdev : Nat) : Option (Int × memory) :=
  match lg_find_driver env.found registry (m.hid hdev) with
  | none => some (-EINVAL, m)
  | some driver =>
    let (device, m) := Rev1.lg_device_create HID_MAX_BUFFER_SIZE
      env.kzalloc_device env.kzalloc_out env.kzalloc_in m hdev (some driver)
    if device = 0 then some (-ENOMEM, hid_err m "Can't alloc device\n")
    else
      let ret := env.hid_parse
      let m := m.call (.hid_parse hdev)
      if ret ≠ 0 then lg_probe_err_free (hid_err m "parse failed\n") device ret
      else
        let ret := env.hid_hw_start
        let m := m.call (.hid_hw_start hdev)
        if ret ≠ 0 then lg_probe_err_free (hid_err m "hw start failed\n") device ret
        else if driver.init then
          let ret := env.init
          let m := m.call (.driver_init device)
          if ret ≠ 0 then lg_probe_err_stop m hdev device ret
          else some (0, m)
        else none

/-- Embedding of `lg_remove(hdev)` of `hid-lg-core.c`. -/
def lg_remove (m : memory) (hdev : Nat) : Option memory :=
  let device := (m.hid hdev).drvdata
  if device = 0 then some m
  else lg_destroy (m.call (.hid_hw_stop hdev)) device

namespace Rev2

/-- Embedding of `lg_device_init(device, hdev, driver)` of `src/src/hid-lg-device.c`; the
`kzalloc_*` arguments are the pointers the allocator returns (0 on failure). -/
def lg_device_init (HID_MAX_BUFFER_SIZE : Nat) (kzalloc_out kzalloc_in : Nat)
    (m : memory) (device hdev : Nat) (driver : Option lg_driver) : Int × memory :=
  let m := m.set_device device { m.device device with out_queue := kzalloc_out }
  if (m.device device).out_queue = 0 then (-ENOMEM, m.call (.kfree device))
  else
    let m := m.set_queue kzalloc_out (kzalloc_queue HID_MAX_BUFFER_SIZE)
    let m := m.set_device device { m.device device with in_queue := kzalloc_in }
    if (m.device device).in_queue = 0 then
      (-ENOMEM, (m.call (.kfree (m.device device).out_queue)).call (.kfree device))
    else
      let m := m.set_queue kzalloc_in (kzalloc_queue HID_MAX_BUFFER_SIZE)
      let m := m.set_device device { m.device device with hdev := hdev, driver := driver }
      let m := hid_set_drvdata m hdev device
      let out_queue := (m.device device).out_queue
      let m := m.set_queue out_queue { m.queue out_queue with main_device := device }
      let in_queue := (m.device device).in_queue
      let m := m.set_queue in_queue { m.queue in_queue with main_device := device }
      (0, m)

/-- Embedding of `lg_device_init_copy(device, from, driver)` of `src/src/hid-lg-device.c`;
the parameter `from` is called `src` here. -/
def lg_device_init_copy (m : memory) (device src : Nat) (driver : Option lg_driver) :
    Int × memory :=
  let m := m.set_device device { m.device device with out_queue := (m.device src).out_queue }
  let m := m.set_device device { m.device device with in_queue := (m.device src).in_queue }
  let m := m.set_device device { m.device device with hdev := (m.device src).hdev }
  let m := m.set_device device { m.device device with driver := driver }
  (0, m)

/-- Embedding of `lg_device_destroy(device)` of `src/src/hid-lg-device.c`.  `not_main` is
true on the two paths that `return` before anything is cancelled or freed. -/
def lg_device_destroy (m : memory) (device : Nat) : memory :=
  let d := m.device device
  let not_main : Bool :=
    if d.in_queue ≠ 0 then
      if device ≠ (m.queue d.in_queue).main_device then true else false
    else if d.out_queue ≠ 0 then
      if device ≠ (m.queue d.out_queue).main_device then true else false
    else false
  if not_main then m
  else
    let m :=
      if d.in_queue ≠ 0 ∧ d.out_queue ≠ 0 then
        (m.call (.cancel_work_sync d.in_queue)).call (.cancel_work_sync d.out_queue)
      else m
    let m := if d.in_queue ≠ 0 then m.call (.kfree d.in_queue) else m
    let m := if d.out_queue ≠ 0 then m.call (.kfree d.out_queue) else m
    hid_set_drvdata m d.hdev 0

end Rev2

/-! ## The queue and its worker as a transition system -/

/-- Where the worker of a queue is: not running; holding the lock in front of
the test `head != tail`; or outside the lock, handing `queue[tail]` to the sink. -/
inductive worker_pc where
  | idle
  | test
  | deliver
deriving DecidableEq, Repr

/-- A queue together with the state of its work item: `pending` is the
kernel's "scheduled, not yet started" bit of `queue->worker`. -/
structure sys_state where
  queue : struct_lg_device_queue
  pending : Bool
  pc : worker_pc
deriving DecidableEq, Repr

/-- The atomic steps: a call of `lg_device_queue`, the work queue starting
the scheduled worker, the worker's emptiness test, the worker's tail advance. -/
inductive sys_label where
  | enqueue (buffer : List u8) (count : Nat)
  | start
  | test
  | advance
deriving DecidableEq, Repr

/-- One atomic step; `none` when the step is not enabled.  `schedule_work`
sets the pending bit (a no-op when it is already set); the work queue starts
the worker only when it is pending and not running, and clears the bit. -/
def sys_step (HID_MAX_BUFFER_SIZE : Nat) (s : sys_state) : sys_label → Option sys_state
  | .enqueue buffer count =>
    let r := lg_device_queue HID_MAX_BUFFER_SIZE s.queue buffer count
    some { s with queue := r.queue, pending := s.pending || r.scheduled }
  | .start =>
    if s.pending ∧ s.pc = .idle then some { s with pending := false, pc := .test } else none
  | .test =>
    if s.pc = .test then
      if s.queue.head ≠ s.queue.tail then some { s with pc := .deliver }
      else some { s with pc := .idle }
    else none
  | .advance =>
    if s.pc = .deliver then
      some { s with
        queue := { s.queue with tail := (s.queue.tail + 1) % LG_DEVICE_BUFSIZE },
        pc := .test }
    else none

/-- States reachable from an empty queue with no worker scheduled or running. -/
inductive sys_reachable (HID_MAX_BUFFER_SIZE : Nat) : sys_state → Prop where
  | init (q : struct_lg_device_queue) (h : q.head = q.tail) :
      sys_reachable HID_MAX_BUFFER_SIZE { queue := q, pending := false, pc := .idle }
  | step (s t : sys_state) (l : sys_label) (hs : sys_reachable HID_MAX_BUFFER_SIZE s)
      (ht : sys_step HID_MAX_BUFFER_SIZE s l = some t) :
      sys_reachable HID_MAX_BUFFER_SIZE t

/-- An empty memory: every object zero, nothing traced. -/
def memory0 : memory :=
  { hid := fun _ => default, device := fun _ => default, queue := fun _ => default,
    trace := [], log := [] }

/-- The calls `lg_device_destroy` of `src/hid-lg-device.c` makes for a device
at address `device` with the given queue pointers, in order: both workers
cancelled, both queues freed, the device freed. -/
def release_calls (in_queue out_queue device : Nat) : List kernel_call :=
  [.cancel_work_sync in_queue, .cancel_work_sync out_queue,
   .kfree in_queue, .kfree out_queue, .kfree device]

/-! ## Concrete objects used to evaluate the definitions -/

/-- A queue filled by 31 calls of `lg_device_queue` on a fresh queue. -/
def full_queue_example : struct_lg_device_queue :=
  enqueue_all 1 (kzalloc_queue 1) (List.replicate 31 [7])

/-- A registered driver for a Bluetooth keyboard. -/
def keyboard_driver : lg_driver :=
  { name := "keyboard", device_id := { bus := 5, vendor := 0x46d, product := 0xb30b },
    type := 1, init := true, exit := true, receive_handler := true }

/-- A registered driver for a Bluetooth mouse. -/
def mouse_driver : lg_driver :=
  { name := "mouse", device_id := { bus := 5, vendor := 0x46d, product := 0xb007 },
    type := 2, init := true, exit := true, receive_handler := true }

/-- A connection with the identity of `keyboard_driver`, no device bound. -/
def keyboard_hdev : hid_device :=
  { bus := 5, vendor := 0x46d, product := 0xb30b, drvdata := 0 }

/-- A connection with an identity no driver above has. -/
def other_hdev : hid_device :=
  { bus := 3, vendor := 0x46d, product := 0xc71c, drvdata := 0 }

/-- A memory whose connection at address 1 is `keyboard_hdev`. -/
def keyboard_memory : memory :=
  { memory0 with hid := fun _ => keyboard_hdev }

/-- An environment in which all allocations succeed and `hid_parse` fails
with `-EIO`. -/
def parse_fails_env : probe_env :=
  { found := 0, kzalloc_device := 100, kzalloc_out := 101, kzalloc_in := 102,
    hid_parse := -5, hid_hw_start := 0, init := 0 }

/-- An environment in which every step of `lg_probe` succeeds. -/
def all_succeed_env : probe_env :=
  { parse_fails_env with hid_parse := 0 }

/-- The memory after a successful `lg_probe` of the keyboard connection. -/
def bound_memory : memory :=
  ((lg_probe 1 all_succeed_env [mouse_driver, keyboard_driver] keyboard_memory 1).map
    Prod.snd).getD memory0

/-- An environment in which only the driver's `init` fails, with -7. -/
def init_fails_env : probe_env :=
  { parse_fails_env with hid_parse := 0, init := -7 }

/-- A state of the queue system reached by one call of `lg_device_queue` on a
fresh queue. -/
def one_pending_state : sys_state :=
  { queue := (lg_device_queue 1 (kzalloc_queue 1) [7] 1).queue, pending := true, pc := .idle }

/-! ## Lemmas on the report queue -/

theorem slot_set_same (l : List lg_device_buf) (i : Nat) (b : lg_device_buf)
    (h : i < l.length) : (l.set i b).getD i default = b := by
  simp [h]

theorem slot_set_other (l : List lg_device_buf) (i j : Nat) (b : lg_device_buf)
    (h : i ≠ j) : (l.set i b).getD j default = l.getD j default := by
  simp [h]

theorem memcpy_length (dst src : List u8) (n : Nat) (hs : n ≤ src.length)
    (hd : n ≤ dst.length) : (memcpy dst src n).length = dst.length := by
  simp [memcpy]; omega

theorem memcpy_take (dst src : List u8) (n : Nat) (hs : n ≤ src.length) :
    (memcpy dst src n).take n = src.take n := by
  unfold memcpy
  exact List.take_left' (by simp [hs])

theorem lg_device_queue_accept (M : Nat) (q : struct_lg_device_queue) (buffer : List u8)
    (count : Nat) (hc : count ≤ M)
    (hfree : q.head = q.tail ∨ (q.head + 1) % LG_DEVICE_BUFSIZE ≠ q.tail) :
    lg_device_queue M q buffer count =
      { queue := accepted_queue q buffer count, scheduled := decide (q.head = q.tail),
        warn := none } := by
  unfold lg_device_queue accepted_queue written_slot
  have h1 : ¬ count > M := by omega
  by_cases h2 : q.head = q.tail
  · simp [h1, h2]
  · rcases hfree with h | h
    · exact absurd h h2
    · simp [h1, h2, h]

theorem lg_device_queue_full (M : Nat) (q : struct_lg_device_queue) (buffer : List u8)
    (count : Nat) (hc : count ≤ M) (hne : q.head ≠ q.tail)
    (hfull : (q.head + 1) % LG_DEVICE_BUFSIZE = q.tail) :
    lg_device_queue M q buffer count =
      { queue := dropped_queue q buffer count, scheduled := false,
        warn := some "Queue is full" } := by
  unfold lg_device_queue dropped_queue written_slot
  have h1 : ¬ count > M := by omega
  simp [h1, hne, hfull]

theorem accepted_queue_wf (M : Nat) (q : struct_lg_device_queue) (buffer : List u8)
    (count : Nat) (hwf : queue_wf M q) (hc : count ≤ M) (hb : count ≤ buffer.length) :
    queue_wf M (accepted_queue q buffer count) := by
  obtain ⟨hh, ht, hl, hd⟩ := hwf
  refine ⟨Nat.mod_lt _ (by decide), ht, by simp [accepted_queue, hl], ?_⟩
  intro b hb2
  rcases List.mem_or_eq_of_mem_set hb2 with h | h
  · exact hd b h
  · subst h
    have hslot : (q.queue.getD q.head default) ∈ q.queue := by
      have hlt : q.head < q.queue.length := by rw [hl]; exact hh
      simp [List.getD_eq_getElem?_getD, List.getElem?_eq_getElem hlt]
    have := hd _ hslot
    simp only [written_slot]
    rw [memcpy_length _ _ _ hb (by omega)]
    exact this

/-- A freshly allocated queue is well formed. -/
theorem kzalloc_queue_wf (M : Nat) : queue_wf M (kzalloc_queue M) := by
  refine ⟨by simp [kzalloc_queue], by simp [kzalloc_queue], by simp [kzalloc_queue], ?_⟩
  intro b hb
  simp only [kzalloc_queue] at hb
  rw [List.eq_of_mem_replicate hb]
  simp

/-- Every call of `lg_device_queue` whose buffer holds `count` bytes keeps the
queue well formed. -/
theorem lg_device_queue_wf (M : Nat) (q : struct_lg_device_queue) (buffer : List u8)
    (count : Nat) (hwf : queue_wf M q) (hb : count ≤ buffer.length) :
    queue_wf M (lg_device_queue M q buffer count).queue := by
  by_cases hc : count ≤ M
  · have hacc := accepted_queue_wf M q buffer count hwf hc hb
    by_cases hfree : q.head = q.tail ∨ (q.head + 1) % LG_DEVICE_BUFSIZE ≠ q.tail
    · rw [lg_device_queue_accept M q buffer count hc hfree]
      exact hacc
    · have hne : q.head ≠ q.tail := fun h => hfree (Or.inl h)
      have hfull : (q.head + 1) % LG_DEVICE_BUFSIZE = q.tail := by
        by_contra h
        exact hfree (Or.inr h)
      rw [lg_device_queue_full M q buffer count hc hne hfull]
      exact ⟨hwf.1, hacc.2.1, hacc.2.2.1, hacc.2.2.2⟩
  · have h1 : count > M := by omega
    simp only [lg_device_queue, h1, if_true]
    exact hwf

theorem pending_count_accept (q : struct_lg_device_queue) (buffer : List u8) (count : Nat)
    (hh : q.head < LG_DEVICE_BUFSIZE) (ht : q.tail < LG_DEVICE_BUFSIZE)
    (hn : pending_count q < 31) :
    pending_count (accepted_queue q buffer count) = pending_count q + 1 := by
  simp only [pending_count, accepted_queue, LG_DEVICE_BUFSIZE] at *
  omega

theorem pending_slots_accept (q : struct_lg_device_queue) (buffer : List u8) (count : Nat)
    (hh : q.head < LG_DEVICE_BUFSIZE) (ht : q.tail < LG_DEVICE_BUFSIZE)
    (hl : q.queue.length = LG_DEVICE_BUFSIZE) (hn : pending_count q < 31) :
    pending_slots (accepted_queue q buffer count) =
      pending_slots q ++ [written_slot q buffer count] := by
  unfold pending_slots
  rw [pending_count_accept q buffer count hh ht hn, List.range_succ, List.map_append]
  congr 1
  · apply List.map_congr_left
    intro i hi
    have hi2 : i < pending_count q := List.mem_range.mp hi
    have hne : q.head ≠ (q.tail + i) % LG_DEVICE_BUFSIZE := by
      simp only [pending_count, LG_DEVICE_BUFSIZE] at *
      omega
    simp only [accepted_queue]
    exact slot_set_other _ _ _ _ hne
  · have heq : (q.tail + pending_count q) % LG_DEVICE_BUFSIZE = q.head := by
      simp only [pending_count, LG_DEVICE_BUFSIZE] at *
      omega
    simp only [accepted_queue, List.map_cons, List.map_nil, heq]
    rw [slot_set_same _ _ _ (by rw [hl]; exact hh)]

theorem pending_slots_length (q : struct_lg_device_queue) :
    (pending_slots q).length = pending_count q := by
  simp [pending_slots]

theorem send_worker_drains (n : Nat) :
    ∀ (q : struct_lg_device_queue) (fuel : Nat), q.head < LG_DEVICE_BUFSIZE →
      q.tail < LG_DEVICE_BUFSIZE → pending_count q = n → n < fuel →
      lg_device_send_worker fuel q = some ({ q with tail := q.head }, pending_slots q) := by
  induction n with
  | zero =>
    intro q fuel hh ht hn hf
    have heq : q.head = q.tail := by
      simp only [pending_count, LG_DEVICE_BUFSIZE] at *
      omega
    obtain ⟨f, rfl⟩ : ∃ f, fuel = f + 1 := ⟨fuel - 1, by omega⟩
    obtain ⟨h, t, sl, md⟩ := q
    simp only at heq
    subst heq
    simp only [lg_device_send_worker, pending_slots, hn, ne_eq, not_true_eq_false,
      if_false, List.range_zero, List.map_nil]
  | succ n ih =>
    intro q fuel hh ht hn hf
    have hne : q.head ≠ q.tail := by
      simp only [pending_count, LG_DEVICE_BUFSIZE] at *
      omega
    obtain ⟨f, rfl⟩ : ∃ f, fuel = f + 1 := ⟨fuel - 1, by omega⟩
    have hn1 : pending_count { q with tail := (q.tail + 1) % LG_DEVICE_BUFSIZE } = n := by
      simp only [pending_count, LG_DEVICE_BUFSIZE] at *
      omega
    have hrec := ih { q with tail := (q.tail + 1) % LG_DEVICE_BUFSIZE } f hh
      (Nat.mod_lt _ (by decide)) hn1 (by omega)
    simp only [lg_device_send_worker, ne_eq, hne, not_false_eq_true, if_true, hrec]
    congr 2
    unfold pending_slots
    rw [hn, hn1, List.range_succ_eq_map, List.map_cons, List.map_map]
    congr 1
    · simp [Nat.mod_eq_of_lt ht]
    · apply List.map_congr_left
      intro i _
      simp only [Function.comp, LG_DEVICE_BUFSIZE]
      congr 1
      omega

theorem receive_worker_with_handler (fuel : Nat) :
    ∀ q : struct_lg_device_queue,
      lg_device_receive_worker true fuel q = lg_device_send_worker fuel q := by
  induction fuel with
  | zero => intro q; rfl
  | succ f ih =>
    intro q
    simp only [lg_device_receive_worker, lg_device_send_worker, ih]
    split <;> simp

theorem receive_worker_without_handler (fuel : Nat) :
    ∀ q : struct_lg_device_queue,
      lg_device_receive_worker false fuel q =
        (lg_device_send_worker fuel q).map (fun r => (r.1, [])) := by
  induction fuel with
  | zero => intro q; rfl
  | succ f ih =>
    intro q
    simp only [lg_device_receive_worker, lg_device_send_worker, ih]
    split
    · cases lg_device_send_worker f
          { q with tail := (q.tail + 1) % LG_DEVICE_BUFSIZE } <;> simp
    · simp

theorem not_full_of_pending_count (q : struct_lg_device_queue)
    (hh : q.head < LG_DEVICE_BUFSIZE) (ht : q.tail < LG_DEVICE_BUFSIZE)
    (hn : pending_count q < 31) :
    q.head = q.tail ∨ (q.head + 1) % LG_DEVICE_BUFSIZE ≠ q.tail := by
  simp only [pending_count, LG_DEVICE_BUFSIZE] at *
  omega

theorem pending_count_of_not_full (q : struct_lg_device_queue)
    (ht : q.tail < LG_DEVICE_BUFSIZE)
    (hfree : q.head = q.tail ∨ (q.head + 1) % LG_DEVICE_BUFSIZE ≠ q.tail) :
    pending_count q < 31 := by
  simp only [pending_count, LG_DEVICE_BUFSIZE] at *
  omega

theorem report_bytes_written_slot (q : struct_lg_device_queue) (p : List u8) :
    report_bytes (written_slot q p p.length) = p := by
  simp only [report_bytes, written_slot]
  rw [memcpy_take _ _ _ (Nat.le_refl _), List.take_length]

theorem enqueue_all_pending (M : Nat) (payloads : List (List u8)) :
    ∀ q : struct_lg_device_queue, queue_wf M q →
      pending_count q + payloads.length ≤ 31 → (∀ p ∈ payloads, p.length ≤ M) →
      queue_wf M (enqueue_all M q payloads) ∧
      (enqueue_all M q payloads).tail = q.tail ∧
      pending_count (enqueue_all M q payloads) = pending_count q + payloads.length ∧
      (pending_slots (enqueue_all M q payloads)).map report_bytes =
        (pending_slots q).map report_bytes ++ payloads ∧
      (pending_slots (enqueue_all M q payloads)).map (fun b => b.size) =
        (pending_slots q).map (fun b => b.size) ++ payloads.map List.length := by
  induction payloads with
  | nil => intro q hwf _ _; simp [enqueue_all, hwf]
  | cons p ps ih =>
    intro q hwf hn hlen
    have hp : p.length ≤ M := hlen p (List.mem_cons_self _ _)
    have hn1 : pending_count q < 31 := by simp only [List.length_cons] at hn; omega
    have hfree := not_full_of_pending_count q hwf.1 hwf.2.1 hn1
    have hstep : enqueue_all M q (p :: ps) = enqueue_all M (accepted_queue q p p.length) ps := by
      simp only [enqueue_all, List.foldl_cons, lg_device_queue_accept M q p p.length hp hfree]
    have hwf1 := accepted_queue_wf M q p p.length hwf hp (Nat.le_refl _)
    have hc1 := pending_count_accept q p p.length hwf.1 hwf.2.1 hn1
    have hs1 := pending_slots_accept q p p.length hwf.1 hwf.2.1 hwf.2.2.1 hn1
    obtain ⟨h1, h2, h3, h4, h5⟩ := ih (accepted_queue q p p.length) hwf1
      (by rw [hc1]; simp only [List.length_cons] at hn; omega)
      (fun x hx => hlen x (List.mem_cons_of_mem _ hx))
    rw [hstep]
    refine ⟨h1, ?_, ?_, ?_, ?_⟩
    · rw [h2]; rfl
    · rw [h3, hc1]; simp only [List.length_cons]; omega
    · rw [h4, hs1]
      simp [report_bytes_written_slot]
    · rw [h5, hs1]
      simp [written_slot]

/-! ## The claims -/

/-- C1. FIFO, exactly-once delivery: after `N ≤ LG_DEVICE_BUFSIZE - 1` calls of
`lg_device_queue` on an empty well-formed queue, with payloads no longer than
`HID_MAX_BUFFER_SIZE` and no drain in between, one run of the send worker (and
one run of the receive worker of a driver with a `receive_handler`) returns,
hands its sink exactly the `N` payloads with their bytes and lengths in
enqueue order, and leaves `head == tail`. -/
theorem fifo_exactly_once_delivery (M : Nat) (q0 : struct_lg_device_queue)
    (payloads : List (List u8)) (fuel : Nat)
    (hwf : queue_wf M q0) (hempty : q0.head = q0.tail)
    (hN : payloads.length ≤ LG_DEVICE_BUFSIZE - 1)
    (hlen : ∀ p ∈ payloads, p.length ≤ M)
    (hfuel : payloads.length < fuel) :
    ∃ (q : struct_lg_device_queue) (log : List lg_device_buf),
      lg_device_send_worker fuel (enqueue_all M q0 payloads) = some (q, log) ∧
      lg_device_receive_worker true fuel (enqueue_all M q0 payloads) = some (q, log) ∧
      q.head = q.tail ∧
      log.length = payloads.length ∧
      log.map report_bytes = payloads ∧
      log.map (fun b => b.size) = payloads.map List.length := by
  have h0 : pending_count q0 = 0 := by simp [pending_count, hempty]
  have hs0 : pending_slots q0 = [] := by simp [pending_slots, h0]
  obtain ⟨h1, _, h3, h4, h5⟩ := enqueue_all_pending M payloads q0 hwf
    (by rw [h0]; simp only [LG_DEVICE_BUFSIZE] at hN; omega) hlen
  have hrun := send_worker_drains _ (enqueue_all M q0 payloads) fuel h1.1 h1.2.1 rfl
    (by rw [h3, h0]; omega)
  refine ⟨_, _, hrun, ?_, rfl, ?_, ?_, ?_⟩
  · rw [receive_worker_with_handler]; exact hrun
  · rw [pending_slots_length, h3, h0]; omega
  · rw [h4, hs0]; rfl
  · rw [h5, hs0]; rfl

/-- Witness of C1: two payloads queued on a fresh queue with two-byte slots, drained with fuel 3. -/
theorem fifo_exactly_once_delivery_witness :
    queue_wf 2 (kzalloc_queue 2) ∧
    ∃ (q : struct_lg_device_queue) (log : List lg_device_buf),
      lg_device_send_worker 3 (enqueue_all 2 (kzalloc_queue 2) [[1], [2, 3]]) = some (q, log) ∧
      lg_device_receive_worker true 3 (enqueue_all 2 (kzalloc_queue 2) [[1], [2, 3]]) =
        some (q, log) ∧
      q.head = q.tail ∧
      log.length = [[1], [2, 3]].length ∧
      log.map report_bytes = [[1], [2, 3]] ∧
      log.map (fun b => b.size) = [[1], [2, 3]].map List.length :=
  ⟨by decide,
   fifo_exactly_once_delivery 2 (kzalloc_queue 2) [[1], [2, 3]] 3 (by decide) (by decide)
     (by decide) (by decide) (by decide)⟩

/-- C2. Drop on overflow: on a well-formed queue holding 31 pending items a
call of `lg_device_queue` with `count ≤ HID_MAX_BUFFER_SIZE` leaves `head` and
`tail` unchanged, does not schedule the worker, warns, overwrites only the
free slot `queue[head]` and leaves the 31 pending slots as they were; a drain
afterwards returns and delivers exactly the original 31 pending items in order. -/
theorem drop_on_overflow (M : Nat) (q : struct_lg_device_queue) (buffer : List u8)
    (count fuel : Nat) (hwf : queue_wf M q) (hne : q.head ≠ q.tail)
    (hfull : (q.head + 1) % LG_DEVICE_BUFSIZE = q.tail) (hc : count ≤ M)
    (hfuel : LG_DEVICE_BUFSIZE ≤ fuel) :
    (lg_device_queue M q buffer count).queue.head = q.head ∧
    (lg_device_queue M q buffer count).queue.tail = q.tail ∧
    (lg_device_queue M q buffer count).scheduled = false ∧
    (lg_device_queue M q buffer count).warn = some "Queue is full" ∧
    (pending_slots q).length = 31 ∧
    (∀ i, i < 31 →
      (lg_device_queue M q buffer count).queue.queue.getD
          ((q.tail + i) % LG_DEVICE_BUFSIZE) default =
        q.queue.getD ((q.tail + i) % LG_DEVICE_BUFSIZE) default) ∧
    (lg_device_queue M q buffer count).queue.queue.getD q.head default =
      written_slot q buffer count ∧
    ∃ q1 : struct_lg_device_queue,
      lg_device_send_worker fuel (lg_device_queue M q buffer count).queue =
        some (q1, pending_slots q) ∧
      lg_device_receive_worker true fuel (lg_device_queue M q buffer count).queue =
        some (q1, pending_slots q) ∧
      q1.head = q1.tail := by
  obtain ⟨hh, ht, hl, _⟩ := hwf
  have hcount : pending_count q = 31 := by
    simp only [pending_count, LG_DEVICE_BUFSIZE] at *
    omega
  have hother : ∀ i, i < 31 →
      (dropped_queue q buffer count).queue.getD ((q.tail + i) % LG_DEVICE_BUFSIZE) default =
        q.queue.getD ((q.tail + i) % LG_DEVICE_BUFSIZE) default := by
    intro i hi
    have hx : q.head ≠ (q.tail + i) % LG_DEVICE_BUFSIZE := by
      simp only [LG_DEVICE_BUFSIZE] at *
      omega
    simp only [dropped_queue]
    exact slot_set_other _ _ _ _ hx
  have hslots : pending_slots (dropped_queue q buffer count) = pending_slots q := by
    unfold pending_slots
    have hc2 : pending_count (dropped_queue q buffer count) = pending_count q := rfl
    rw [hc2]
    apply List.map_congr_left
    intro i hi
    have hi2 : i < pending_count q := List.mem_range.mp hi
    exact hother i (by omega)
  have hrun := send_worker_drains 31 (dropped_queue q buffer count) fuel hh ht hcount
    (by simp only [LG_DEVICE_BUFSIZE] at hfuel; omega)
  rw [hslots] at hrun
  rw [lg_device_queue_full M q buffer count hc hne hfull]
  refine ⟨rfl, rfl, rfl, rfl, ?_, hother, ?_, _, hrun, ?_, rfl⟩
  · rw [pending_slots_length, hcount]
  · simp only [dropped_queue]
    exact slot_set_same _ _ _ (by rw [hl]; exact hh)
  · rw [receive_worker_with_handler]; exact hrun

/-- Witness of C2: a 32nd payload offered to `full_queue_example`. -/
theorem drop_on_overflow_witness :
    (queue_wf 1 full_queue_example ∧ full_queue_example.head ≠ full_queue_example.tail ∧
      (full_queue_example.head + 1) % LG_DEVICE_BUFSIZE = full_queue_example.tail) ∧
    (lg_device_queue 1 full_queue_example [9] 1).queue.head = full_queue_example.head ∧
    (lg_device_queue 1 full_queue_example [9] 1).queue.tail = full_queue_example.tail ∧
    (lg_device_queue 1 full_queue_example [9] 1).scheduled = false ∧
    (lg_device_queue 1 full_queue_example [9] 1).warn = some "Queue is full" ∧
    (pending_slots full_queue_example).length = 31 ∧
    (∀ i, i < 31 →
      (lg_device_queue 1 full_queue_example [9] 1).queue.queue.getD
          ((full_queue_example.tail + i) % LG_DEVICE_BUFSIZE) default =
        full_queue_example.queue.getD
          ((full_queue_example.tail + i) % LG_DEVICE_BUFSIZE) default) ∧
    (lg_device_queue 1 full_queue_example [9] 1).queue.queue.getD
        full_queue_example.head default =
      written_slot full_queue_example [9] 1 ∧
    ∃ q1 : struct_lg_device_queue,
      lg_device_send_worker 32 (lg_device_queue 1 full_queue_example [9] 1).queue =
        some (q1, pending_slots full_queue_example) ∧
      lg_device_receive_worker true 32 (lg_device_queue 1 full_queue_example [9] 1).queue =
        some (q1, pending_slots full_queue_example) ∧
      q1.head = q1.tail :=
  ⟨by decide,
   drop_on_overflow 1 full_queue_example [9] 1 32 (by decide) (by decide) (by decide)
     (by decide) (by decide)⟩

/-- C3. Oversized payloads are rejected, never truncated or split: with
`count > HID_MAX_BUFFER_SIZE` the call leaves the whole queue unchanged and
schedules nothing; an accepted call (`count ≤ HID_MAX_BUFFER_SIZE`, queue not
full) makes `queue[head]` the newest pending slot, with `size == count` and
its first `count` bytes those of the payload. -/
theorem oversized_rejected_accepted_recorded (M : Nat) (q : struct_lg_device_queue)
    (buffer : List u8) (count : Nat) :
    (M < count →
      lg_device_queue M q buffer count =
        { queue := q, scheduled := false,
          warn := some "Sending too large output report\n" }) ∧
    (queue_wf M q → count ≤ M → count ≤ buffer.length →
      (q.head = q.tail ∨ (q.head + 1) % LG_DEVICE_BUFSIZE ≠ q.tail) →
      (lg_device_queue M q buffer count).queue.head = (q.head + 1) % LG_DEVICE_BUFSIZE ∧
      (lg_device_queue M q buffer count).queue.tail = q.tail ∧
      pending_slots (lg_device_queue M q buffer count).queue =
        pending_slots q ++
          [(lg_device_queue M q buffer count).queue.queue.getD q.head default] ∧
      ((lg_device_queue M q buffer count).queue.queue.getD q.head default).size = count ∧
      (((lg_device_queue M q buffer count).queue.queue.getD q.head default).data.take count =
        buffer.take count) ∧
      ((lg_device_queue M q buffer count).queue.queue.getD q.head default).data.length = M) := by
  constructor
  · intro h
    simp [lg_device_queue, h]
  · intro hwf hc hb hfree
    have hn := pending_count_of_not_full q hwf.2.1 hfree
    have hslot : (accepted_queue q buffer count).queue.getD q.head default =
        written_slot q buffer count := by
      simp only [accepted_queue]
      exact slot_set_same _ _ _ (by rw [hwf.2.2.1]; exact hwf.1)
    have hmem : (q.queue.getD q.head default) ∈ q.queue := by
      have hlt : q.head < q.queue.length := by rw [hwf.2.2.1]; exact hwf.1
      simp [List.getD_eq_getElem?_getD, List.getElem?_eq_getElem hlt]
    rw [lg_device_queue_accept M q buffer count hc hfree]
    simp only [hslot]
    refine ⟨rfl, rfl, pending_slots_accept q buffer count hwf.1 hwf.2.1 hwf.2.2.1 hn,
      rfl, memcpy_take _ _ _ hb, ?_⟩
    simp only [written_slot]
    rw [memcpy_length _ _ _ hb (by rw [hwf.2.2.2 _ hmem]; exact hc)]
    exact hwf.2.2.2 _ hmem

/-- Witness of C3: a three-byte and a two-byte payload offered to a fresh queue with two-byte slots. -/
theorem oversized_rejected_accepted_recorded_witness :
    (lg_device_queue 2 (kzalloc_queue 2) [1, 2, 3] 3 =
        { queue := kzalloc_queue 2, scheduled := false,
          warn := some "Sending too large output report\n" }) ∧
    ((lg_device_queue 2 (kzalloc_queue 2) [5, 6] 2).queue.head =
        ((kzalloc_queue 2).head + 1) % LG_DEVICE_BUFSIZE ∧
      (lg_device_queue 2 (kzalloc_queue 2) [5, 6] 2).queue.tail = (kzalloc_queue 2).tail ∧
      pending_slots (lg_device_queue 2 (kzalloc_queue 2) [5, 6] 2).queue =
        pending_slots (kzalloc_queue 2) ++
          [(lg_device_queue 2 (kzalloc_queue 2) [5, 6] 2).queue.queue.getD
            (kzalloc_queue 2).head default] ∧
      ((lg_device_queue 2 (kzalloc_queue 2) [5, 6] 2).queue.queue.getD
        (kzalloc_queue 2).head default).size = 2 ∧
      (((lg_device_queue 2 (kzalloc_queue 2) [5, 6] 2).queue.queue.getD
        (kzalloc_queue 2).head default).data.take 2 = [5, 6].take 2) ∧
      ((lg_device_queue 2 (kzalloc_queue 2) [5, 6] 2).queue.queue.getD
        (kzalloc_queue 2).head default).data.length = 2) :=
  ⟨(oversized_rejected_accepted_recorded 2 (kzalloc_queue 2) [1, 2, 3] 3).1 (by decide),
   (oversized_rejected_accepted_recorded 2 (kzalloc_queue 2) [5, 6] 2).2 (by decide)
     (by decide) (by decide) (by decide)⟩

/-! ## Lemmas on the registry and the lifecycle -/

section memory_lemmas

@[simp]
theorem call_trace (m : memory) (c : kernel_call) :
    (m.call c).trace = m.trace ++ [c] := rfl

@[simp]
theorem call_device (m : memory) (c : kernel_call) :
    (m.call c).device = m.device := rfl

@[simp]
theorem call_queue (m : memory) (c : kernel_call) :
    (m.call c).queue = m.queue := rfl

@[simp]
theorem call_hid (m : memory) (c : kernel_call) : (m.call c).hid = m.hid := rfl

@[simp]
theorem hid_err_trace (m : memory) (msg : String) :
    (hid_err m msg).trace = m.trace := rfl

@[simp]
theorem hid_err_device (m : memory) (msg : String) :
    (hid_err m msg).device = m.device := rfl

@[simp]
theorem set_device_trace (m : memory) (a : Nat) (d : lg_device) :
    (m.set_device a d).trace = m.trace := rfl

@[simp]
theorem set_device_device (m : memory) (a : Nat) (d : lg_device) :
    (m.set_device a d).device a = d := by
  simp [memory.set_device]

@[simp]
theorem set_device_queue (m : memory) (a : Nat) (d : lg_device) :
    (m.set_device a d).queue = m.queue := rfl

@[simp]
theorem set_queue_trace (m : memory) (a : Nat) (q : struct_lg_device_queue) :
    (m.set_queue a q).trace = m.trace := rfl

@[simp]
theorem set_queue_device (m : memory) (a : Nat) (q : struct_lg_device_queue) :
    (m.set_queue a q).device = m.device := rfl

@[simp]
theorem set_queue_queue (m : memory) (a : Nat) (q : struct_lg_device_queue) :
    (m.set_queue a q).queue a = q := by
  simp [memory.set_queue]

@[simp]
theorem hid_set_drvdata_trace (m : memory) (hdev data : Nat) :
    (hid_set_drvdata m hdev data).trace = m.trace := rfl

@[simp]
theorem hid_set_drvdata_device (m : memory) (hdev data : Nat) :
    (hid_set_drvdata m hdev data).device = m.device := rfl

@[simp]
theorem hid_set_drvdata_queue (m : memory) (hdev data : Nat) :
    (hid_set_drvdata m hdev data).queue = m.queue := rfl

end memory_lemmas

theorem lg_device_create_ok (M kd ko ki : Nat) (m : memory) (hdev : Nat)
    (driver : Option lg_driver) (hd : kd ≠ 0) (ho : ko ≠ 0) (hi : ki ≠ 0) :
    (Rev1.lg_device_create M kd ko ki m hdev driver).1 = kd ∧
    (Rev1.lg_device_create M kd ko ki m hdev driver).2.trace = m.trace ∧
    ((Rev1.lg_device_create M kd ko ki m hdev driver).2.device kd).driver = driver ∧
    ((Rev1.lg_device_create M kd ko ki m hdev driver).2.device kd).in_queue = ki ∧
    ((Rev1.lg_device_create M kd ko ki m hdev driver).2.device kd).out_queue = ko := by
  simp [Rev1.lg_device_create, hd, ho, hi]

theorem lg_device_destroy_trace (m : memory) (device : Nat) :
    (Rev1.lg_device_destroy m device).trace =
      m.trace ++ release_calls (m.device device).in_queue (m.device device).out_queue device := by
  simp [Rev1.lg_device_destroy, release_calls]

theorem lg_destroy_trace (m : memory) (device : Nat) (d : lg_driver)
    (hd : (m.device device).driver = some d) (he : d.exit = true) :
    (lg_destroy m device).map (fun r => r.trace) =
      some (m.trace ++ [.driver_exit device] ++
        release_calls (m.device device).in_queue (m.device device).out_queue device) := by
  simp [lg_destroy, hd, he, lg_device_destroy_trace]

/-- When some entry has the identity of the connection, `lg_find_driver` returns
the first such entry, whatever the initial value of `found`. -/
theorem lg_find_driver_first_match (found : Nat) (registry : List lg_driver)
    (hdev : hid_device) (d : lg_driver)
    (h : registry.find? (fun x => decide (hdev.bus = x.device_id.bus ∧
      hdev.vendor = x.device_id.vendor ∧ hdev.product = x.device_id.product)) = some d) :
    lg_find_driver found registry hdev = some d := by
  unfold lg_find_driver
  induction registry with
  | nil => simp at h
  | cons x xs ih =>
    by_cases hx : hdev.bus = x.device_id.bus ∧ hdev.vendor = x.device_id.vendor ∧
        hdev.product = x.device_id.product
    · simp only [List.find?, hx, and_self, decide_True, Option.some.injEq] at h
      subst h
      simp [lg_find_driver_loop, hx]
    · simp only [List.find?, hx, decide_False] at h
      simp only [lg_find_driver_loop, hx, if_false]
      exact ih h

/-- When no entry has the identity of the connection, `lg_find_driver` returns
NULL only if the uninitialised `found` happened to be zero; otherwise it
returns the address of the list head object `drivers`. -/
theorem lg_find_driver_no_match (found : Nat) (registry : List lg_driver)
    (hdev : hid_device)
    (h : ∀ x ∈ registry, ¬ (hdev.bus = x.device_id.bus ∧
      hdev.vendor = x.device_id.vendor ∧ hdev.product = x.device_id.product)) :
    lg_find_driver found registry hdev = if found = 0 then none else some drivers := by
  unfold lg_find_driver
  induction registry with
  | nil => simp [lg_find_driver_loop]
  | cons x xs ih =>
    have hx := h x (List.mem_cons_self _ _)
    simp only [lg_find_driver_loop, hx, if_false]
    exact ih (fun y hy => h y (List.mem_cons_of_mem _ hy))

/-! ## Claims on the registry and the lifecycle -/

/-- C4 (the code at a failing input). Two drivers with distinct identities are
registered; a connection with a third identity is resolved while the
uninitialised local `found` holds 1: `lg_find_driver` returns the address of
the list head object `drivers`, not NULL; the same happens for the keyboard's
identity after `lg_unregister_driver` of the keyboard.  With `found` holding 0
both calls return NULL, and a registered identity is resolved to its driver. -/
theorem lg_find_driver_uninitialised_found :
    lg_find_driver 1
      (lg_register_driver (lg_register_driver [] keyboard_driver 0).registry
        mouse_driver 0).registry other_hdev = some drivers ∧
    lg_find_driver 1
      (lg_unregister_driver
        (lg_register_driver (lg_register_driver [] keyboard_driver 0).registry
          mouse_driver 0).registry keyboard_driver) keyboard_hdev = some drivers ∧
    lg_find_driver 0
      (lg_register_driver (lg_register_driver [] keyboard_driver 0).registry
        mouse_driver 0).registry other_hdev = none ∧
    lg_find_driver 0
      (lg_unregister_driver
        (lg_register_driver (lg_register_driver [] keyboard_driver 0).registry
          mouse_driver 0).registry keyboard_driver) keyboard_hdev = none ∧
    lg_find_driver 1
      (lg_register_driver (lg_register_driver [] keyboard_driver 0).registry
        mouse_driver 0).registry keyboard_hdev = some keyboard_driver := by
  decide

/-- C5 (the code at a failing input). Whatever `hid_register_driver` returns,
`lg_register_driver` returns that value and leaves the descriptor at the front
of the registry: after a failed transport registration the registry differs
from the registry before the call and resolving the descriptor's identity
returns the descriptor. -/
theorem lg_register_driver_failure_keeps_entry (registry : List lg_driver)
    (driver : lg_driver) (ret : Int) (found : Nat) :
    (lg_register_driver registry driver ret).ret = ret ∧
    (lg_register_driver registry driver ret).registry = driver :: registry ∧
    (lg_register_driver registry driver ret).registry ≠ registry ∧
    lg_find_driver found (lg_register_driver registry driver ret).registry
      { bus := driver.device_id.bus, vendor := driver.device_id.vendor,
        product := driver.device_id.product, drvdata := 0 } = some driver := by
  have hreg : (lg_register_driver registry driver ret).registry = driver :: registry := by
    by_cases h : ret = 0 <;> simp [lg_register_driver, h]
  refine ⟨?_, hreg, ?_, ?_⟩
  · by_cases h : ret = 0 <;> simp [lg_register_driver, h]
  · rw [hreg]
    intro h
    have := congrArg List.length h
    simp at this
  · rw [hreg]
    simp [lg_find_driver, lg_find_driver_loop]

/-- C6 (counterexample). `hid_parse` fails for a connection whose driver was
found and whose device was allocated: `lg_probe` returns the failure, and the
driver's `exit` callback is called although `init` never was. -/
theorem lg_probe_parse_failure_calls_exit :
    (lg_probe 1 parse_fails_env [mouse_driver, keyboard_driver] keyboard_memory 1).map
        (fun r => (r.1, r.2.trace)) =
      some (-5, [.hid_parse 1, .driver_exit 100, .cancel_work_sync 102, .cancel_work_sync 101,
        .kfree 102, .kfree 101, .kfree 100]) ∧
    (lg_probe 1 parse_fails_env [mouse_driver, keyboard_driver] keyboard_memory 1).map
        (fun r => decide (kernel_call.driver_exit 100 ∈ r.2.trace ∧
          kernel_call.driver_init 100 ∉ r.2.trace)) = some true := by
  decide

/-- C6 (amended). For a connection that resolves to a driver with `init` and
`exit` callbacks and whose three allocations succeed, `lg_probe` calls
`hid_parse`, `hid_hw_start`, the driver's `init` in that order and stops at the
first that fails; it then calls `hid_hw_stop` (only when `init` was the one
that failed), then `lg_destroy`, that is the driver's `exit` followed by the
release of the device, and returns the failing result.  When all three succeed
it returns 0 and calls nothing else. -/
theorem lg_probe_unwinds_through_lg_destroy (M : Nat) (env : probe_env)
    (registry : List lg_driver) (m : memory) (hdev : Nat) (driver : lg_driver)
    (hfind : lg_find_driver env.found registry (m.hid hdev) = some driver)
    (hinit : driver.init = true) (hexit : driver.exit = true)
    (hd : env.kzalloc_device ≠ 0) (ho : env.kzalloc_out ≠ 0) (hi : env.kzalloc_in ≠ 0) :
    (lg_probe M env registry m hdev).map (fun r => (r.1, r.2.trace)) =
      some (
        if env.hid_parse ≠ 0 then
          (env.hid_parse,
            m.trace ++ [.hid_parse hdev, .driver_exit env.kzalloc_device] ++
              release_calls env.kzalloc_in env.kzalloc_out env.kzalloc_device)
        else if env.hid_hw_start ≠ 0 then
          (env.hid_hw_start,
            m.trace ++ [.hid_parse hdev, .hid_hw_start hdev,
                .driver_exit env.kzalloc_device] ++
              release_calls env.kzalloc_in env.kzalloc_out env.kzalloc_device)
        else if env.init ≠ 0 then
          (env.init,
            m.trace ++ [.hid_parse hdev, .hid_hw_start hdev,
                .driver_init env.kzalloc_device, .hid_hw_stop hdev,
                .driver_exit env.kzalloc_device] ++
              release_calls env.kzalloc_in env.kzalloc_out env.kzalloc_device)
        else
          (0, m.trace ++ [.hid_parse hdev, .hid_hw_start hdev,
                .driver_init env.kzalloc_device])) := by
  obtain ⟨c1, c2, c3, c4, c5⟩ := lg_device_create_ok M env.kzalloc_device env.kzalloc_out
    env.kzalloc_in m hdev (some driver) hd ho hi
  unfold lg_probe
  rw [hfind]
  by_cases hp : env.hid_parse = 0
  · by_cases hs : env.hid_hw_start = 0
    · by_cases hn : env.init = 0
      · simp [hp, hs, hn, hinit, c1, c2, hd]
      · simp [hp, hs, hn, hinit, lg_probe_err_stop, lg_probe_err_free, lg_destroy, c1, c3, c4,
          c5, hexit, lg_device_destroy_trace, c2, hd]
    · simp [hp, hs, lg_probe_err_free, lg_destroy, c1, c3, c4, c5, hexit,
        lg_device_destroy_trace, c2, hd]
  · simp [hp, lg_probe_err_free, lg_destroy, c1, c3, c4, c5, hexit, lg_device_destroy_trace,
      c2, hd]

/-- Witness of C6 (amended): the keyboard connection is probed and the driver's `init` fails. -/
theorem lg_probe_unwinds_through_lg_destroy_witness :
    lg_find_driver init_fails_env.found [mouse_driver, keyboard_driver]
        (keyboard_memory.hid 1) = some keyboard_driver ∧
    (lg_probe 1 init_fails_env [mouse_driver, keyboard_driver] keyboard_memory 1).map
        (fun r => (r.1, r.2.trace)) =
      some (-7, [.hid_parse 1, .hid_hw_start 1, .driver_init 100, .hid_hw_stop 1,
        .driver_exit 100, .cancel_work_sync 102, .cancel_work_sync 101,
        .kfree 102, .kfree 101, .kfree 100]) :=
  ⟨by decide,
   lg_probe_unwinds_through_lg_destroy 1 init_fails_env [mouse_driver, keyboard_driver]
     keyboard_memory 1 keyboard_driver (by decide) (by decide) (by decide) (by decide)
     (by decide) (by decide)⟩

/-- C9. Detach ordering: with no bound device `lg_remove` does nothing at all;
with a bound device it calls, in this order and nothing else, `hid_hw_stop`,
the driver's `exit` when the device has a driver, and `lg_device_destroy`,
which cancels both queue workers before it frees the queues and the device. -/
theorem lg_remove_stop_exit_destroy (m : memory) (hdev : Nat) :
    ((m.hid hdev).drvdata = 0 → lg_remove m hdev = some m) ∧
    ((m.hid hdev).drvdata ≠ 0 →
      (∀ d, (m.device (m.hid hdev).drvdata).driver = some d → d.exit = true) →
      (lg_remove m hdev).map (fun r => r.trace) =
        some (m.trace ++ [.hid_hw_stop hdev] ++
          (if (m.device (m.hid hdev).drvdata).driver.isSome then
            [.driver_exit (m.hid hdev).drvdata] else []) ++
          release_calls (m.device (m.hid hdev).drvdata).in_queue
            (m.device (m.hid hdev).drvdata).out_queue (m.hid hdev).drvdata)) := by
  constructor
  · intro h
    simp [lg_remove, h]
  · intro h hexit
    cases hdrv : (m.device (m.hid hdev).drvdata).driver with
    | none => simp [lg_remove, h, lg_destroy, hdrv, lg_device_destroy_trace]
    | some d =>
      have he := hexit d hdrv
      simp [lg_remove, h, lg_destroy, hdrv, he, lg_device_destroy_trace]

/-- Witness of C9: `lg_remove` on the unbound `keyboard_memory` and on `bound_memory`. -/
theorem lg_remove_stop_exit_destroy_witness :
    (bound_memory.hid 1).drvdata ≠ 0 ∧
    lg_remove keyboard_memory 1 = some keyboard_memory ∧
    (lg_remove bound_memory 1).map (fun r => r.trace) =
      some (bound_memory.trace ++ [.hid_hw_stop 1] ++
        (if (bound_memory.device (bound_memory.hid 1).drvdata).driver.isSome then
          [.driver_exit (bound_memory.hid 1).drvdata] else []) ++
        release_calls (bound_memory.device (bound_memory.hid 1).drvdata).in_queue
          (bound_memory.device (bound_memory.hid 1).drvdata).out_queue
          (bound_memory.hid 1).drvdata) :=
  ⟨by decide,
   (lg_remove_stop_exit_destroy keyboard_memory 1).1 (by decide),
   (lg_remove_stop_exit_destroy bound_memory 1).2 (by decide) (by decide)⟩

/-- C7. Shared-queue ownership on teardown (`src/src/hid-lg-device.c`): after
`lg_device_init` of an owner and `lg_device_init_copy` of a child from it, the
child has the owner's two queues and both queues name the owner as
`main_device`; `lg_device_destroy(child)` cancels nothing, frees nothing and
leaves the memory as it was; `lg_device_destroy(owner)` cancels the workers of
both queues and only then frees the two queues. -/
theorem lg_device_destroy_only_owner_frees (M : Nat) (kzalloc_out kzalloc_in : Nat)
    (m : memory) (owner child hdev : Nat) (driver child_driver : Option lg_driver)
    (ho : kzalloc_out ≠ 0) (hi : kzalloc_in ≠ 0) (hne : child ≠ owner) :
    (Rev2.lg_device_init M kzalloc_out kzalloc_in m owner hdev driver).1 = 0 ∧
    ∃ m2 : memory,
      Rev2.lg_device_init_copy
        (Rev2.lg_device_init M kzalloc_out kzalloc_in m owner hdev driver).2
        child owner child_driver = (0, m2) ∧
      (m2.device owner).in_queue = kzalloc_in ∧
      (m2.device owner).out_queue = kzalloc_out ∧
      (m2.device child).in_queue = (m2.device owner).in_queue ∧
      (m2.device child).out_queue = (m2.device owner).out_queue ∧
      (m2.queue (m2.device owner).in_queue).main_device = owner ∧
      (m2.queue (m2.device owner).out_queue).main_device = owner ∧
      m2.trace = m.trace ∧
      Rev2.lg_device_destroy m2 child = m2 ∧
      (Rev2.lg_device_destroy m2 owner).trace =
        m2.trace ++ [.cancel_work_sync (m2.device owner).in_queue,
          .cancel_work_sync (m2.device owner).out_queue,
          .kfree (m2.device owner).in_queue, .kfree (m2.device owner).out_queue] := by
  have hinit : (Rev2.lg_device_init M kzalloc_out kzalloc_in m owner hdev driver).1 = 0 := by
    simp [Rev2.lg_device_init, ho, hi]
  have h1 : ((Rev2.lg_device_init M kzalloc_out kzalloc_in m owner hdev driver).2.device
      owner).in_queue = kzalloc_in := by
    simp [Rev2.lg_device_init, ho, hi]
  have h2 : ((Rev2.lg_device_init M kzalloc_out kzalloc_in m owner hdev driver).2.device
      owner).out_queue = kzalloc_out := by
    simp [Rev2.lg_device_init, ho, hi]
  have h3 : ((Rev2.lg_device_init M kzalloc_out kzalloc_in m owner hdev driver).2.queue
      kzalloc_in).main_device = owner := by
    simp [Rev2.lg_device_init, ho, hi]
  have h4 : ((Rev2.lg_device_init M kzalloc_out kzalloc_in m owner hdev driver).2.queue
      kzalloc_out).main_device = owner := by
    by_cases hio : kzalloc_out = kzalloc_in
    · simp [Rev2.lg_device_init, ho, hi, hio]
    · simp [Rev2.lg_device_init, ho, hi, hio, memory.set_queue, Function.update]
  have h5 : (Rev2.lg_device_init M kzalloc_out kzalloc_in m owner hdev driver).2.trace =
      m.trace := by
    simp [Rev2.lg_device_init, ho, hi]
  generalize (Rev2.lg_device_init M kzalloc_out kzalloc_in m owner hdev driver).2 = m1
    at h1 h2 h3 h4 h5 ⊢
  have hoc : owner ≠ child := Ne.symm hne
  have k0 : (Rev2.lg_device_init_copy m1 child owner child_driver).1 = 0 := rfl
  have k1 : (Rev2.lg_device_init_copy m1 child owner child_driver).2.device owner =
      m1.device owner := by
    simp [Rev2.lg_device_init_copy, memory.set_device, Function.update, hoc]
  have k2 : ((Rev2.lg_device_init_copy m1 child owner child_driver).2.device child).in_queue =
      (m1.device owner).in_queue := by
    simp [Rev2.lg_device_init_copy, memory.set_device, Function.update, hoc]
  have k3 : ((Rev2.lg_device_init_copy m1 child owner child_driver).2.device child).out_queue =
      (m1.device owner).out_queue := by
    simp [Rev2.lg_device_init_copy, memory.set_device, Function.update, hoc]
  have k4 : (Rev2.lg_device_init_copy m1 child owner child_driver).2.queue = m1.queue := rfl
  have k5 : (Rev2.lg_device_init_copy m1 child owner child_driver).2.trace = m1.trace := rfl
  refine ⟨hinit, (Rev2.lg_device_init_copy m1 child owner child_driver).2, rfl, ?_⟩
  generalize (Rev2.lg_device_init_copy m1 child owner child_driver).2 = m2 at k1 k2 k3 k4 k5 ⊢
  rw [k1, k2, k3, k4, k5, h1, h2, h3, h4]
  refine ⟨rfl, rfl, rfl, rfl, rfl, rfl, h5, ?_, ?_⟩
  · simp [Rev2.lg_device_destroy, k2, k4, h1, h3, hi, hne]
  · simp [Rev2.lg_device_destroy, k1, k4, k5, h1, h2, h3, hi, ho]

/-- Witness of C7: owner at address 10, child at address 20, queues at 101 and 102. -/
theorem lg_device_destroy_only_owner_frees_witness :
    (Rev2.lg_device_init 1 101 102 memory0 10 1 (some keyboard_driver)).1 = 0 ∧
    ∃ m2 : memory,
      Rev2.lg_device_init_copy
        (Rev2.lg_device_init 1 101 102 memory0 10 1 (some keyboard_driver)).2
        20 10 (some mouse_driver) = (0, m2) ∧
      (m2.device 10).in_queue = 102 ∧
      (m2.device 10).out_queue = 101 ∧
      (m2.device 20).in_queue = (m2.device 10).in_queue ∧
      (m2.device 20).out_queue = (m2.device 10).out_queue ∧
      (m2.queue (m2.device 10).in_queue).main_device = 10 ∧
      (m2.queue (m2.device 10).out_queue).main_device = 10 ∧
      m2.trace = memory0.trace ∧
      Rev2.lg_device_destroy m2 20 = m2 ∧
      (Rev2.lg_device_destroy m2 10).trace =
        m2.trace ++ [.cancel_work_sync (m2.device 10).in_queue,
          .cancel_work_sync (m2.device 10).out_queue,
          .kfree (m2.device 10).in_queue, .kfree (m2.device 10).out_queue] :=
  lg_device_destroy_only_owner_frees 1 101 102 memory0 10 20 1 (some keyboard_driver)
    (some mouse_driver) (by decide) (by decide) (by decide)

/-! ## Claims on scheduling and on inbound reports -/

theorem lg_device_queue_scheduled_iff (M : Nat) (q : struct_lg_device_queue)
    (buffer : List u8) (count : Nat) :
    (lg_device_queue M q buffer count).scheduled = true ↔ (q.head = q.tail ∧ count ≤ M) := by
  unfold lg_device_queue
  by_cases h1 : count > M
  · simp only [h1, if_true]
    constructor
    · intro h; cases h
    · intro h; omega
  · by_cases h2 : q.head = q.tail
    · simp only [h1, if_false, h2, if_true, true_and, true_iff]
      omega
    · by_cases h3 : (q.head + 1) % LG_DEVICE_BUFSIZE ≠ q.tail
      · simp [h1, h2, h3]
      · simp only [h1, if_false, h2, h3, false_and, iff_false]
        simp

theorem lg_device_queue_empty_stays_empty_or_schedules (M : Nat)
    (q : struct_lg_device_queue) (buffer : List u8) (count : Nat) (h : q.head = q.tail)
    (hne : (lg_device_queue M q buffer count).queue.head ≠
      (lg_device_queue M q buffer count).queue.tail) :
    (lg_device_queue M q buffer count).scheduled = true := by
  rw [lg_device_queue_scheduled_iff]
  refine ⟨h, ?_⟩
  by_contra hc
  have h1 : count > M := by omega
  apply hne
  simp [lg_device_queue, h1, h]

theorem sys_invariant (M : Nat) (s : sys_state) (hs : sys_reachable M s) :
    s.queue.head ≠ s.queue.tail → s.pending = true ∨ s.pc ≠ .idle := by
  induction hs with
  | init q h => intro hne; exact absurd h hne
  | step s t l _ ht ih =>
    intro hne
    cases l with
    | enqueue buffer count =>
      simp only [sys_step, Option.some.injEq] at ht
      subst ht
      simp only at hne ⊢
      by_cases he : s.queue.head = s.queue.tail
      · left
        rw [lg_device_queue_empty_stays_empty_or_schedules M s.queue buffer count he hne]
        simp
      · rcases ih he with hp | hp
        · left; simp [hp]
        · right; exact hp
    | start =>
      simp only [sys_step] at ht
      split at ht
      · simp only [Option.some.injEq] at ht
        subst ht
        right; simp
      · cases ht
    | test =>
      simp only [sys_step] at ht
      split at ht
      · split at ht
        · simp only [Option.some.injEq] at ht
          subst ht
          right; simp
        · rename_i hq
          simp only [Option.some.injEq] at ht
          subst ht
          exact absurd hne hq
      · cases ht
    | advance =>
      simp only [sys_step] at ht
      split at ht
      · simp only [Option.some.injEq] at ht
        subst ht
        right; simp
      · cases ht

/-- C8. Worker-scheduling invariant: `lg_device_queue` requests
`schedule_work` exactly when the queue was empty before the call and the
payload was not oversized, in which case the payload is accepted; and in the
transition system of the locked regions, started from an empty queue with no
worker scheduled or running, every reachable state with `head != tail` has the
worker scheduled or running. -/
theorem worker_scheduled_while_pending (M : Nat) :
    (∀ (q : struct_lg_device_queue) (buffer : List u8) (count : Nat),
      ((lg_device_queue M q buffer count).scheduled = true ↔
        (q.head = q.tail ∧ count ≤ M)) ∧
      (q.head = q.tail ∧ count ≤ M →
        (lg_device_queue M q buffer count).queue = accepted_queue q buffer count)) ∧
    (∀ s : sys_state, sys_reachable M s → s.queue.head ≠ s.queue.tail →
      s.pending = true ∨ s.pc ≠ .idle) := by
  refine ⟨fun q buffer count => ⟨lg_device_queue_scheduled_iff M q buffer count, ?_⟩,
    sys_invariant M⟩
  rintro ⟨h, hc⟩
  rw [lg_device_queue_accept M q buffer count hc (Or.inl h)]

/-- Witness of C8: the state after one call of `lg_device_queue` on a fresh queue. -/
theorem worker_scheduled_while_pending_witness :
    sys_reachable 1 one_pending_state ∧
    one_pending_state.queue.head ≠ one_pending_state.queue.tail ∧
    (one_pending_state.pending = true ∨ one_pending_state.pc ≠ .idle) ∧
    (lg_device_queue 1 (kzalloc_queue 1) [7] 1).queue =
      accepted_queue (kzalloc_queue 1) [7] 1 :=
  ⟨sys_reachable.step { queue := kzalloc_queue 1, pending := false, pc := .idle }
      one_pending_state (.enqueue [7] 1) (sys_reachable.init (kzalloc_queue 1) rfl)
      (by decide),
   by decide,
   (worker_scheduled_while_pending 1).2 one_pending_state
     (sys_reachable.step { queue := kzalloc_queue 1, pending := false, pc := .idle }
       one_pending_state (.enqueue [7] 1) (sys_reachable.init (kzalloc_queue 1) rfl)
       (by decide))
     (by decide),
   ((worker_scheduled_while_pending 1).1 (kzalloc_queue 1) [7] 1).2 (by decide)⟩

/-- C10. Inbound report filter: `lg_device_event` returns 0 and calls
`lg_device_queue` on the input queue of the bound device, with the raw bytes
and the size, exactly when `report->id >= 0x10` (and, in
`src/src/hid-lg-device.c`, a device is bound); for `report->id < 0x10` the
input queue is unchanged and its worker is not scheduled.  The revision of
`src/hid-lg-device.c` behaves the same on a connection with a bound device. -/
theorem lg_device_event_filter (M : Nat) (in_queue : Option struct_lg_device_queue)
    (id : Nat) (raw_data : List u8) (size : Int) :
    (Rev2.lg_device_event M in_queue id raw_data size).ret = 0 ∧
    ((Rev2.lg_device_event M in_queue id raw_data size).queued ≠ [] ↔
      (0x10 ≤ id ∧ in_queue.isSome = true)) ∧
    (id < 0x10 →
      (Rev2.lg_device_event M in_queue id raw_data size).in_queue = in_queue ∧
      (Rev2.lg_device_event M in_queue id raw_data size).scheduled = false ∧
      (Rev2.lg_device_event M in_queue id raw_data size).queued = []) ∧
    (∀ q, 0x10 ≤ id → in_queue = some q →
      (Rev2.lg_device_event M in_queue id raw_data size).queued =
        [(raw_data, size_t_of_int size)] ∧
      (Rev2.lg_device_event M in_queue id raw_data size).in_queue =
        some (lg_device_queue M q raw_data (size_t_of_int size)).queue ∧
      (Rev2.lg_device_event M in_queue id raw_data size).scheduled =
        (lg_device_queue M q raw_data (size_t_of_int size)).scheduled) ∧
    (id < 0x10 →
      Rev1.lg_device_event M in_queue id raw_data size =
        some { ret := 0, in_queue := in_queue, scheduled := false, queued := [], log := [] }) ∧
    (∀ q, 0x10 ≤ id → in_queue = some q →
      Rev1.lg_device_event M in_queue id raw_data size =
        some { ret := 0,
               in_queue := some (lg_device_queue M q raw_data (size_t_of_int size)).queue,
               scheduled := (lg_device_queue M q raw_data (size_t_of_int size)).scheduled,
               queued := [(raw_data, size_t_of_int size)],
               log := (lg_device_queue M q raw_data (size_t_of_int size)).warn.toList }) := by
  refine ⟨?_, ?_, ?_, ?_, ?_, ?_⟩
  · unfold Rev2.lg_device_event
    split
    · rfl
    · split <;> rfl
  · unfold Rev2.lg_device_event
    by_cases h : id < 0x10
    · simp only [h, if_true, ne_eq, not_true_eq_false, false_iff, not_and]
      intro h2; omega
    · cases in_queue with
      | none => simp [h]
      | some q =>
        simp only [h, if_false, ne_eq, List.cons_ne_nil, not_false_eq_true, Option.isSome_some,
          and_true, true_iff]
        omega
  · intro h
    simp [Rev2.lg_device_event, h]
  · intro q h hq
    have h2 : ¬ id < 0x10 := by omega
    subst hq
    simp [Rev2.lg_device_event, h2]
  · intro h
    simp [Rev1.lg_device_event, h]
  · intro q h hq
    have h2 : ¬ id < 0x10 := by omega
    subst hq
    simp [Rev1.lg_device_event, h2]

/-- Witness of C10: reports with id 0x01 and 0x10 on a connection with a bound device. -/
theorem lg_device_event_filter_witness :
    ((Rev2.lg_device_event 2 (some (kzalloc_queue 2)) 0x01 [1, 9] 2).in_queue =
        some (kzalloc_queue 2) ∧
      (Rev2.lg_device_event 2 (some (kzalloc_queue 2)) 0x01 [1, 9] 2).scheduled = false ∧
      (Rev2.lg_device_event 2 (some (kzalloc_queue 2)) 0x01 [1, 9] 2).queued = []) ∧
    ((Rev2.lg_device_event 2 (some (kzalloc_queue 2)) 0x10 [16, 9] 2).queued =
        [([16, 9], size_t_of_int 2)] ∧
      (Rev2.lg_device_event 2 (some (kzalloc_queue 2)) 0x10 [16, 9] 2).in_queue =
        some (lg_device_queue 2 (kzalloc_queue 2) [16, 9] (size_t_of_int 2)).queue ∧
      (Rev2.lg_device_event 2 (some (kzalloc_queue 2)) 0x10 [16, 9] 2).scheduled =
        (lg_device_queue 2 (kzalloc_queue 2) [16, 9] (size_t_of_int 2)).scheduled) ∧
    Rev1.lg_device_event 2 (some (kzalloc_queue 2)) 0x01 [1, 9] 2 =
      some { ret := 0, in_queue := some (kzalloc_queue 2), scheduled := false, queued := [],
             log := [] } ∧
    Rev1.lg_device_event 2 (some (kzalloc_queue 2)) 0x10 [16, 9] 2 =
      some { ret := 0,
             in_queue := some (lg_device_queue 2 (kzalloc_queue 2) [16, 9]
               (size_t_of_int 2)).queue,
             scheduled := (lg_device_queue 2 (kzalloc_queue 2) [16, 9]
               (size_t_of_int 2)).scheduled,
             queued := [([16, 9], size_t_of_int 2)],
             log := (lg_device_queue 2 (kzalloc_queue 2) [16, 9]
               (size_t_of_int 2)).warn.toList } :=
  ⟨(lg_device_event_filter 2 (some (kzalloc_queue 2)) 0x01 [1, 9] 2).2.2.1 (by decide),
   (lg_device_event_filter 2 (some (kzalloc_queue 2)) 0x10 [16, 9] 2).2.2.2.1
     (kzalloc_queue 2) (by decide) rfl,
   (lg_device_event_filter 2 (some (kzalloc_queue 2)) 0x01 [1, 9] 2).2.2.2.2.1 (by decide),
   (lg_device_event_filter 2 (some (kzalloc_queue 2)) 0x10 [16, 9] 2).2.2.2.2.2
     (kzalloc_queue 2) (by decide) rfl⟩
